import Mathlib

/-
Verification of the Photo-Landmark-Explorer single-page application.

The development shallowly embeds the application logic that the checked
properties are about:

  - src/types.ts                : LoadingStep (a string-valued enum),
                                  GroundingSource, ChatMessage, LandmarkInfo,
                                  TourStop
  - src/services/geminiService  : identifyLandmark response validation and the
                                  emphasis-stripping sanitization
                                  (replace of every occurrence of two
                                  consecutive asterisks with the empty string)
  - src/App.tsx (the app-shell variant with the API-key prompt, the one whose
    line numbers the checked properties cite): resetState, handleImageSelect,
    handleRetry, handleSelectLandmark, handleInvalidApiKey and the error
    classification performed in the catch blocks
  - src/components/QAChat.tsx   : submitMessage and its three updates of the
                                  chat message list

External AI calls are modelled by passing each call outcome as an explicit
Except value; the set of capability calls a workflow actually performs is
returned as an explicit trace, and object-URL revocations are returned as an
explicit list, so that resource-release and call-avoidance properties are
statable.
-/

namespace PLE

/-- The string-valued enum LoadingStep from src/types.ts. -/
inductive LoadingStep where
  | IDLE
  | IDENTIFYING
  | FETCHING_HISTORY
  | GENERATING_SPEECH
  | DONE
  | ERROR
deriving DecidableEq

/-- The string value carried by each LoadingStep enum member (TS string enum). -/
def stepValue : LoadingStep → String
  | LoadingStep.IDLE => "IDLE"
  | LoadingStep.IDENTIFYING => "IDENTIFYING"
  | LoadingStep.FETCHING_HISTORY => "FETCHING_HISTORY"
  | LoadingStep.GENERATING_SPEECH => "GENERATING_SPEECH"
  | LoadingStep.DONE => "DONE"
  | LoadingStep.ERROR => "ERROR"

/-- JavaScript string comparison: lexicographic on UTF-16 code units.  All the
enum values are ASCII, so comparing Char code points agrees with JS. -/
def lexLt : List Char → List Char → Bool
  | [], [] => false
  | [], _ :: _ => true
  | _ :: _, [] => false
  | a :: as, b :: bs =>
    if a.toNat < b.toNat then true
    else if b.toNat < a.toNat then false
    else lexLt as bs

/-- JavaScript a <= b on strings, i.e. the negation of b < a. -/
def jsStrLe (a b : String) : Bool := !(lexLt b.data a.data)

/-- The comparison the retry guards in src/App.tsx perform:
stepToRetry <= LoadingStep.X compares the enum member string values with the
JS relational operator. -/
def jsStepLe (a b : LoadingStep) : Bool := jsStrLe (stepValue a) (stepValue b)

/-- JavaScript String.prototype.includes, on the char list of the receiver. -/
def occursIn (sub : List Char) : List Char → Bool
  | [] => sub.isEmpty
  | c :: rest => sub.isPrefixOf (c :: rest) || occursIn sub rest

/-- err.message.includes(sub) as used by the catch blocks in src/App.tsx. -/
def jsIncludes (s sub : String) : Bool := occursIn sub.data s.data

/-- LandmarkInfo from src/types.ts: all five fields required and non-null. -/
structure LandmarkInfo where
  name : String
  city : String
  country : String
  latitude : Float
  longitude : Float

/-- GroundingSource from src/types.ts: an optional web citation with uri and
title. -/
structure GroundingSource where
  web : Option (String × String)

/-- A user-selected image file; the app never inspects its contents, so it is
modelled by an opaque identifier. -/
structure ImageFile where
  id : Nat
deriving DecidableEq

/-- TourStop from src/types.ts. -/
structure TourStop where
  landmarkInfo : LandmarkInfo
  imageUrl : String
  imageFile : ImageFile
  history : String
  sources : List GroundingSource
  base64Audio : String

/-- The parsed identify response (interface LandmarkIdentificationResponse in
src/services/geminiService.ts): every field other than is_landmark is
declared string-or-null respectively number-or-null; none is the null case. -/
structure LandmarkIdentificationResponse where
  is_landmark : Bool
  name : Option String
  city : Option String
  country : Option String
  latitude : Option Float
  longitude : Option Float

/-- JS truthiness test performed by the negations in the identify validation:
a string-or-null field is falsy when it is null or the empty string. -/
def strFalsy : Option String → Bool
  | none => true
  | some s => s == ""

/-- The response validation and field extraction of identifyLandmark in
src/services/geminiService.ts.  The backend call itself is external; its
parsed JSON is the input.  The getD defaults in the success branch are
unreachable because the guard already rejected null fields. -/
def identifyLandmark (result : LandmarkIdentificationResponse) :
    Except String LandmarkInfo :=
  if !result.is_landmark || strFalsy result.name || strFalsy result.city
      || strFalsy result.country || result.latitude.isNone
      || result.longitude.isNone then
    Except.error "LANDMARK_NOT_FOUND"
  else
    Except.ok
      { name := result.name.getD ""
        city := result.city.getD ""
        country := result.country.getD ""
        latitude := result.latitude.getD 0
        longitude := result.longitude.getD 0 }

/-- The global removal of every occurrence of two consecutive asterisks, as
performed on the model text by fetchLandmarkHistory, askQuestion and
fetchFunFact in src/services/geminiService.ts.  The JS global replace scans
left to right and removes non-overlapping matches, which is exactly this
recursion. -/
def stripStars : List Char → List Char
  | [] => []
  | [c] => [c]
  | c1 :: c2 :: rest =>
    if c1 = '*' ∧ c2 = '*' then stripStars rest
    else c1 :: stripStars (c2 :: rest)

/-- The emphasis-stripping sanitization applied to narrate, answer and
fun-fact outputs. -/
def sanitizeText (s : String) : String := String.mk (stripStars s.data)

/-- Text post-processing of fetchLandmarkHistory. -/
def fetchLandmarkHistoryText (rawText : String) : String := sanitizeText rawText

/-- Text post-processing of askQuestion. -/
def askQuestionText (rawText : String) : String := sanitizeText rawText

/-- Text post-processing of fetchFunFact. -/
def fetchFunFactText (rawText : String) : String := sanitizeText rawText

/-- The error classification tags of src/App.tsx (type ErrorType). -/
inductive ErrorType where
  | generic
  | quota
  | key
  | not_found
deriving DecidableEq

/-- The React state of the App component in src/App.tsx, together with the
persisted credential (localStorage entry under the key gemini_api_key),
which the app reads into apiKey on mount and clears on invalidation. -/
structure AppState where
  loadingStep : LoadingStep
  failedStep : Option LoadingStep
  error : Option String
  errorType : ErrorType
  imageUrl : Option String
  imageFile : Option ImageFile
  landmarkInfo : Option LandmarkInfo
  history : String
  sources : List GroundingSource
  base64Audio : String
  tourHistory : List TourStop
  isTourEnded : Bool
  userLevel : String
  isRetryableError : Bool
  apiKey : Option String
  storedKey : Option String

/-- One AI Capability Client operation of the tour pipeline. -/
inductive CapCall where
  | identify
  | fetchHistory
  | generateSpeech
deriving DecidableEq

/-- Result of running one of the app's handlers: the new state, the trace of
capability calls the handler performed, and the object URLs it revoked, in
order. -/
structure RunResult where
  state : AppState
  calls : List CapCall
  revoked : List String

/-- resetState from src/App.tsx: clears the per-attempt state; revokes the
current image URL only when no tour-history entry references it; on
isNewTour additionally revokes every history entry URL, clears the tour
history, the tour-ended flag and the user level. -/
def resetState (st : AppState) (isNewTour : Bool) : RunResult :=
  let revokedCurrent : List String :=
    match st.imageUrl with
    | some u =>
      if st.tourHistory.any (fun stop => stop.imageUrl == u) then [] else [u]
    | none => []
  let base : AppState :=
    { st with
      loadingStep := LoadingStep.IDLE
      error := none
      errorType := ErrorType.generic
      failedStep := none
      landmarkInfo := none
      history := ""
      sources := []
      base64Audio := ""
      imageFile := none
      isRetryableError := true
      imageUrl := none }
  if isNewTour then
    { state := { base with tourHistory := [], isTourEnded := false, userLevel := "" }
      calls := []
      revoked := revokedCurrent ++ st.tourHistory.map (fun stop => stop.imageUrl) }
  else
    { state := base, calls := [], revoked := revokedCurrent }

/-- handleInvalidApiKey from src/App.tsx: removes the stored credential and
clears the in-memory key. -/
def handleInvalidApiKey (st : AppState) : AppState :=
  { st with storedKey := none, apiKey := none }

/-- The error classification performed in the catch blocks of
handleImageSelect and handleRetry in src/App.tsx, in source order: an
invalid-credential message, then LANDMARK_NOT_FOUND, then quota exhaustion,
else generic.  Returns the ErrorType tag and the isRetryable flag. -/
def classifyError (m : String) : ErrorType × Bool :=
  if jsIncludes m "API key not valid" then (ErrorType.key, false)
  else if m == "LANDMARK_NOT_FOUND" then (ErrorType.not_found, false)
  else if jsIncludes m "RESOURCE_EXHAUSTED" then (ErrorType.quota, false)
  else (ErrorType.generic, true)

/-- The shared tail of both catch blocks in src/App.tsx: classify the message,
clear the credential when it was marked invalid, and enter the Error state
blaming the given step.  (The user-facing message formatting is elided; the
classification it is derived from is kept.) -/
def applyFailure (st : AppState) (step : LoadingStep) (m : String) : AppState :=
  let c := classifyError m
  let st1 := if c.1 = ErrorType.key then handleInvalidApiKey st else st
  { st1 with
    error := some m
    errorType := c.1
    isRetryableError := c.2
    loadingStep := LoadingStep.ERROR
    failedStep := some step }

/-- handleImageSelect from src/App.tsx.  The three external call outcomes are
passed as Except values; objectUrl is the fresh object URL created for the
submitted file.  Faithful points: the whole attempt starts with
resetState(false); the catch block revokes the object URL unconditionally,
before classification; the new TourStop is appended without any duplicate
check. -/
def handleImageSelect (st : AppState) (file : ImageFile) (objectUrl : String)
    (identifyRes : Except String LandmarkInfo)
    (historyRes : Except String (String × List GroundingSource))
    (speechRes : Except String String) : RunResult :=
  if st.userLevel == "" then { state := st, calls := [], revoked := [] }
  else
    match st.apiKey with
    | none => { state := st, calls := [], revoked := [] }
    | some _ =>
      let r0 := resetState st false
      let stA : AppState :=
        { r0.state with
          imageUrl := some objectUrl
          imageFile := some file
          loadingStep := LoadingStep.IDENTIFYING }
      match identifyRes with
      | Except.error m =>
        { state := applyFailure stA LoadingStep.IDENTIFYING m
          calls := [CapCall.identify]
          revoked := r0.revoked ++ [objectUrl] }
      | Except.ok lm =>
        let stB : AppState :=
          { stA with landmarkInfo := some lm, loadingStep := LoadingStep.FETCHING_HISTORY }
        match historyRes with
        | Except.error m =>
          { state := applyFailure stB LoadingStep.FETCHING_HISTORY m
            calls := [CapCall.identify, CapCall.fetchHistory]
            revoked := r0.revoked ++ [objectUrl] }
        | Except.ok hs =>
          let stC : AppState :=
            { stB with
              history := hs.1
              sources := hs.2
              loadingStep := LoadingStep.GENERATING_SPEECH }
          match speechRes with
          | Except.error m =>
            { state := applyFailure stC LoadingStep.GENERATING_SPEECH m
              calls := [CapCall.identify, CapCall.fetchHistory, CapCall.generateSpeech]
              revoked := r0.revoked ++ [objectUrl] }
          | Except.ok audio =>
            { state :=
                { stC with
                  base64Audio := audio
                  tourHistory := stC.tourHistory ++
                    [{ landmarkInfo := lm, imageUrl := objectUrl, imageFile := file,
                       history := hs.1, sources := hs.2, base64Audio := audio }]
                  loadingStep := LoadingStep.DONE
                  failedStep := none }
              calls := [CapCall.identify, CapCall.fetchHistory, CapCall.generateSpeech]
              revoked := r0.revoked }

/-- The tail of handleRetry after all stages have run: enter DONE and append
the tour stop unless an entry with the same landmark name already exists
(the find-by-name duplicate check of src/App.tsx). -/
def retryFinish (st : AppState) (theFile : ImageFile) (theUrl : String)
    (lm : LandmarkInfo) (historyToUse : String)
    (sourcesToUse : List GroundingSource) (audioToUse : String)
    (calls : List CapCall) : RunResult :=
  let st1 := { st with loadingStep := LoadingStep.DONE }
  if (st.tourHistory.find? (fun item => item.landmarkInfo.name == lm.name)).isSome then
    { state := st1, calls := calls, revoked := [] }
  else
    { state :=
        { st1 with
          tourHistory := st.tourHistory ++
            [{ landmarkInfo := lm, imageUrl := theUrl, imageFile := theFile,
               history := historyToUse, sources := sourcesToUse,
               base64Audio := audioToUse }] }
      calls := calls
      revoked := [] }

/-- The speech stage of handleRetry, guarded by
stepToRetry <= LoadingStep.GENERATING_SPEECH (JS string comparison). -/
def retryStage3 (st : AppState) (stepToRetry : LoadingStep)
    (theFile : ImageFile) (theUrl : String) (lm : LandmarkInfo)
    (historyToUse : String) (sourcesToUse : List GroundingSource)
    (speechRes : Except String String) (calls : List CapCall) : RunResult :=
  if jsStepLe stepToRetry LoadingStep.GENERATING_SPEECH then
    match speechRes with
    | Except.error m =>
      { state := applyFailure { st with loadingStep := LoadingStep.GENERATING_SPEECH }
          stepToRetry m
        calls := calls ++ [CapCall.generateSpeech]
        revoked := [] }
    | Except.ok audio =>
      retryFinish { st with loadingStep := LoadingStep.GENERATING_SPEECH, base64Audio := audio }
        theFile theUrl lm historyToUse sourcesToUse audio
        (calls ++ [CapCall.generateSpeech])
  else
    retryFinish st theFile theUrl lm historyToUse sourcesToUse st.base64Audio calls

/-- The history stage of handleRetry, guarded by
stepToRetry <= LoadingStep.FETCHING_HISTORY (JS string comparison). -/
def retryStage2 (st : AppState) (stepToRetry : LoadingStep)
    (theFile : ImageFile) (theUrl : String) (lm : LandmarkInfo)
    (historyRes : Except String (String × List GroundingSource))
    (speechRes : Except String String) (calls : List CapCall) : RunResult :=
  if jsStepLe stepToRetry LoadingStep.FETCHING_HISTORY then
    match historyRes with
    | Except.error m =>
      { state := applyFailure { st with loadingStep := LoadingStep.FETCHING_HISTORY }
          stepToRetry m
        calls := calls ++ [CapCall.fetchHistory]
        revoked := [] }
    | Except.ok hs =>
      retryStage3
        { st with
          loadingStep := LoadingStep.FETCHING_HISTORY
          history := hs.1
          sources := hs.2 }
        stepToRetry theFile theUrl lm hs.1 hs.2 speechRes
        (calls ++ [CapCall.fetchHistory])
  else
    retryStage3 st stepToRetry theFile theUrl lm st.history st.sources speechRes calls

/-- handleRetry from src/App.tsx.  Guard: failedStep, imageFile, imageUrl,
userLevel and apiKey must all be present (JS falsiness), else no-op.  Each
stage is guarded by the comparison stepToRetry <= LoadingStep.X on the
string enum values; a stage that runs consumes its Except outcome, and a
thrown error enters the catch block, which blames stepToRetry and does not
revoke any URL. -/
def handleRetry (st : AppState)
    (identifyRes : Except String LandmarkInfo)
    (historyRes : Except String (String × List GroundingSource))
    (speechRes : Except String String) : RunResult :=
  match st.failedStep, st.imageFile, st.imageUrl, st.apiKey with
  | some stepToRetry, some theFile, some theUrl, some _ =>
    if st.userLevel == "" then { state := st, calls := [], revoked := [] }
    else
      let st1 : AppState :=
        { st with
          error := none
          errorType := ErrorType.generic
          loadingStep := stepToRetry
          failedStep := none
          isRetryableError := true }
      if jsStepLe stepToRetry LoadingStep.IDENTIFYING then
        match identifyRes with
        | Except.error m =>
          { state := applyFailure st1 stepToRetry m
            calls := [CapCall.identify]
            revoked := [] }
        | Except.ok lm =>
          retryStage2 { st1 with landmarkInfo := some lm } stepToRetry theFile theUrl
            lm historyRes speechRes [CapCall.identify]
      else
        match st.landmarkInfo with
        | some lm =>
          retryStage2 st1 stepToRetry theFile theUrl lm historyRes speechRes []
        | none =>
          { state := applyFailure st1 stepToRetry "Landmark not identified."
            calls := []
            revoked := [] }
  | _, _, _, _ => { state := st, calls := [], revoked := [] }

/-- handleSelectLandmark from src/App.tsx: bounds-checked lookup of the tour
history entry; on a hit, restores the Done view from the stored stop without
any capability call; on a miss, no state change. -/
def handleSelectLandmark (st : AppState) (index : Nat) : RunResult :=
  match st.tourHistory[index]? with
  | some selectedStop =>
    { state :=
        { st with
          loadingStep := LoadingStep.DONE
          error := none
          failedStep := none
          landmarkInfo := some selectedStop.landmarkInfo
          history := selectedStop.history
          sources := selectedStop.sources
          base64Audio := selectedStop.base64Audio
          imageFile := some selectedStop.imageFile
          imageUrl := some selectedStop.imageUrl
          isTourEnded := false }
      calls := []
      revoked := [] }
  | none => { state := st, calls := [], revoked := [] }

/-- Chat roles from src/types.ts. -/
inductive Role where
  | user
  | model
deriving DecidableEq

/-- ChatMessage from src/types.ts. -/
structure ChatMessage where
  role : Role
  content : String
deriving DecidableEq

/-- The first list update of submitMessage in src/components/QAChat.tsx:
append the user message. -/
def appendUserMessage (prev : List ChatMessage) (m : String) : List ChatMessage :=
  prev ++ [{ role := Role.user, content := m }]

/-- The success-branch list update of submitMessage: append the model
answer. -/
def appendModelMessage (prev : List ChatMessage) (r : String) : List ChatMessage :=
  prev ++ [{ role := Role.model, content := r }]

/-- The error-branch list update of submitMessage:
setMessages(prev => prev.slice(0, prev.length - 1)). -/
def dropLastOnFailure (prev : List ChatMessage) : List ChatMessage :=
  prev.take (prev.length - 1)

/-- JavaScript String.prototype.trim: drop whitespace from both ends. -/
def jsTrim (s : String) : String :=
  String.mk ((s.data.dropWhile Char.isWhitespace).reverse.dropWhile
    Char.isWhitespace).reverse

/-- submitMessage from src/components/QAChat.tsx, with the askQuestion call
outcome passed as an Except value; returns the final message list. -/
def submitMessage (messages : List ChatMessage) (message : String)
    (isLoading : Bool) (answerRes : Except String String) : List ChatMessage :=
  if jsTrim message == "" || isLoading then messages
  else
    let m1 := appendUserMessage messages message
    match answerRes with
    | Except.ok r => appendModelMessage m1 r
    | Except.error _ => dropLastOnFailure m1

/-- The absence of two consecutive asterisks, the shape of every sanitized
output. -/
def noDoubleStar : List Char → Prop
  | c1 :: c2 :: rest => ¬(c1 = '*' ∧ c2 = '*') ∧ noDoubleStar (c2 :: rest)
  | _ => True

/-- A concrete landmark used by the concrete scenarios below. -/
def lmEiffel : LandmarkInfo :=
  { name := "Eiffel Tower", city := "Paris", country := "France",
    latitude := 48.8584, longitude := 2.2945 }

/-- A concrete idle session: level chosen, credential stored, empty ledger. -/
def idleState : AppState :=
  { loadingStep := LoadingStep.IDLE, failedStep := none, error := none,
    errorType := ErrorType.generic, imageUrl := none, imageFile := none,
    landmarkInfo := none, history := "", sources := [], base64Audio := "",
    tourHistory := [], isTourEnded := false, userLevel := "adult",
    isRetryableError := true, apiKey := some "k", storedKey := some "k" }

/-- A concrete state whose attempt failed at the given step with a generic,
retryable error (image file and object URL still present). -/
def failedState (step : LoadingStep) : AppState :=
  { loadingStep := LoadingStep.ERROR, failedStep := some step,
    error := some "boom", errorType := ErrorType.generic,
    imageUrl := some "blob:photo-1", imageFile := some { id := 1 },
    landmarkInfo := some lmEiffel, history := "some history", sources := [],
    base64Audio := "", tourHistory := [], isTourEnded := false,
    userLevel := "adult", isRetryableError := true, apiKey := some "k",
    storedKey := some "k" }

/-- A concrete completed tour stop. -/
def doneStop : TourStop :=
  { landmarkInfo := lmEiffel, imageUrl := "blob:photo-1",
    imageFile := { id := 1 }, history := "h", sources := [], base64Audio := "a" }

theorem stripStars_cons2 (c1 c2 : Char) (rest : List Char) :
    stripStars (c1 :: c2 :: rest) =
      if c1 = '*' ∧ c2 = '*' then stripStars rest
      else c1 :: stripStars (c2 :: rest) := rfl

theorem stripStars_cons_of_ne {c : Char} (h : c ≠ '*') (l : List Char) :
    stripStars (c :: l) = c :: stripStars l := by
  cases l with
  | nil => rfl
  | cons c2 r => rw [stripStars_cons2]; simp [h]

theorem stripStars_of_noDoubleStar : ∀ l : List Char, noDoubleStar l → stripStars l = l := by
  intro l
  induction l with
  | nil => intro _; rfl
  | cons c t ih =>
    intro h
    cases t with
    | nil => rfl
    | cons c2 r =>
      have h1 : ¬(c = '*' ∧ c2 = '*') := h.1
      have h2 : noDoubleStar (c2 :: r) := h.2
      rw [stripStars_cons2, if_neg h1, ih h2]

theorem noDoubleStar_stripStars (l : List Char) : noDoubleStar (stripStars l) := by
  induction l using stripStars.induct with
  | case1 => trivial
  | case2 c => trivial
  | case3 c1 c2 rest h ih =>
    rw [stripStars_cons2, if_pos h]
    exact ih
  | case4 c1 c2 rest h ih =>
    rw [stripStars_cons2, if_neg h]
    by_cases hc1 : c1 = '*'
    · have hc2 : c2 ≠ '*' := fun hb => h ⟨hc1, hb⟩
      rw [stripStars_cons_of_ne hc2]
      refine ⟨fun hab => hc2 hab.2, ?_⟩
      rw [← stripStars_cons_of_ne hc2]
      exact ih
    · cases hX : stripStars (c2 :: rest) with
      | nil => trivial
      | cons d t => exact ⟨fun hab => hc1 hab.1, hX ▸ ih⟩

theorem stripStars_idem (l : List Char) :
    stripStars (stripStars l) = stripStars l :=
  stripStars_of_noDoubleStar _ (noDoubleStar_stripStars l)

/-- Claim C7: the emphasis-stripping sanitization applied to the narrate,
answer and fun-fact outputs (removal of every occurrence of two consecutive
asterisks) is idempotent: applying it twice yields the same result as
applying it once. -/
theorem c7_sanitization_idempotent (s : String) :
    sanitizeText (sanitizeText s) = sanitizeText s :=
  congrArg String.mk (stripStars_idem s.data)

theorem strFalsy_eq_true (o : Option String) :
    strFalsy o = true ↔ o = none ∨ o = some "" := by
  cases o with
  | none => simp [strFalsy]
  | some s => simp [strFalsy]

theorem identifyLandmark_eq_error_iff (r : LandmarkIdentificationResponse) :
    identifyLandmark r = Except.error "LANDMARK_NOT_FOUND" ↔
      (!r.is_landmark || strFalsy r.name || strFalsy r.city || strFalsy r.country
        || r.latitude.isNone || r.longitude.isNone) = true := by
  unfold identifyLandmark
  split
  next h => simp [h]
  next h => simp [h]

/-- Claim C6 counterexample: a response with is_landmark true and every
required field present and non-null, but an empty-string name, is rejected
with LANDMARK_NOT_FOUND even though the claim says it should succeed (the
code tests JS falsiness of the string fields, not only null-ness). -/
theorem c6_empty_name_rejected_cx :
    identifyLandmark
      { is_landmark := true, name := some "", city := some "Paris",
        country := some "France", latitude := some 48.8584,
        longitude := some 2.2945 }
      = Except.error "LANDMARK_NOT_FOUND" := rfl

/-- Claim C6 (amended): identifyLandmark throws LANDMARK_NOT_FOUND exactly
when is_landmark is false, any of the required string fields (name, city,
country) is null or the empty string, or latitude or longitude is null;
otherwise it returns a LandmarkInfo carrying those five field values. -/
theorem c6_amended_identify_validation (r : LandmarkIdentificationResponse) :
    (identifyLandmark r = Except.error "LANDMARK_NOT_FOUND" ↔
      (r.is_landmark = false ∨ r.name = none ∨ r.name = some ""
        ∨ r.city = none ∨ r.city = some "" ∨ r.country = none
        ∨ r.country = some "" ∨ r.latitude = none ∨ r.longitude = none))
    ∧ (∀ n c k la lo, r.is_landmark = true →
        r.name = some n → r.city = some c → r.country = some k →
        r.latitude = some la → r.longitude = some lo →
        n ≠ "" → c ≠ "" → k ≠ "" →
        identifyLandmark r = Except.ok
          { name := n, city := c, country := k, latitude := la, longitude := lo }) := by
  constructor
  · rw [identifyLandmark_eq_error_iff]
    simp [strFalsy_eq_true, Option.isNone_iff_eq_none, Bool.or_eq_true,
      Bool.not_eq_true', or_assoc]
  · intro n c k la lo hb hn hc hk hla hlo hn0 hc0 hk0
    unfold identifyLandmark
    rw [hb, hn, hc, hk, hla, hlo]
    simp [strFalsy, hn0, hc0, hk0]

/-- Claim C6 amended witness: a fully populated response succeeds with the
returned LandmarkInfo. -/
theorem c6_amended_witness :
    identifyLandmark
      { is_landmark := true, name := some "Eiffel Tower", city := some "Paris",
        country := some "France", latitude := some 48.8584,
        longitude := some 2.2945 }
      = Except.ok { name := "Eiffel Tower", city := "Paris", country := "France",
                    latitude := 48.8584, longitude := 2.2945 } :=
  (c6_amended_identify_validation _).2 "Eiffel Tower" "Paris" "France" 48.8584 2.2945
    rfl rfl rfl rfl rfl rfl (by decide) (by decide) (by decide)

/-- Claim C1 (code bug): the retry stage guards compare the string values of
the LoadingStep enum with the JS relational operator, which is lexicographic,
and the lexicographic order of the enum values does not match the pipeline
order.  Concretely: retrying an attempt that failed at FETCHING_HISTORY
re-invokes identify (because the string FETCHING_HISTORY compares less-equal
to IDENTIFYING), and retrying an attempt that failed at IDENTIFYING runs only
identify and skips both downstream stages. -/
theorem c1_retry_reexecutes_wrong_stages :
    ((handleRetry (failedState LoadingStep.FETCHING_HISTORY)
        (Except.ok lmEiffel) (Except.ok ("h", [])) (Except.ok "audio")).calls
      = [CapCall.identify, CapCall.fetchHistory, CapCall.generateSpeech])
    ∧ ((handleRetry
          { failedState LoadingStep.IDENTIFYING with landmarkInfo := none, history := "" }
          (Except.ok lmEiffel) (Except.ok ("h", [])) (Except.ok "audio")).calls
      = [CapCall.identify]) := by
  constructor <;> rfl

/-- Claim C4 (code bug): the catch block of handleImageSelect revokes the
attempt's object URL unconditionally, before the error is classified, so the
URL is released even on a generic, retryable failure — the concrete run below
fails identify with a generic network error, is classified retryable, and
still has its object URL revoked. -/
theorem c4_object_url_revoked_on_retryable_failure :
    ((handleImageSelect idleState { id := 1 } "blob:photo-1"
        (Except.error "network error") (Except.ok ("h", []))
        (Except.ok "audio")).state.isRetryableError = true)
    ∧ ((handleImageSelect idleState { id := 1 } "blob:photo-1"
        (Except.error "network error") (Except.ok ("h", []))
        (Except.ok "audio")).revoked = ["blob:photo-1"]) := by
  constructor <;> rfl

/-- Claim C2 counterexample: two sequential successful attempts that both
resolve to the landmark name Eiffel Tower leave TWO ledger entries with that
name, not one — the direct success path of handleImageSelect appends without
any duplicate check. -/
theorem c2_duplicate_ledger_entries_cx :
    ((handleImageSelect
        (handleImageSelect idleState { id := 1 } "blob:photo-1"
          (Except.ok lmEiffel) (Except.ok ("h1", [])) (Except.ok "a1")).state
        { id := 2 } "blob:photo-2"
        (Except.ok lmEiffel) (Except.ok ("h2", [])) (Except.ok "a2")).state.tourHistory.map
      (fun stop => stop.landmarkInfo.name))
      = ["Eiffel Tower", "Eiffel Tower"] := by
  rfl

theorem applyFailure_tourHistory (st : AppState) (step : LoadingStep) (m : String) :
    (applyFailure st step m).tourHistory = st.tourHistory := by
  unfold applyFailure handleInvalidApiKey
  dsimp only
  split <;> rfl

theorem retryFinish_ledger (st : AppState) (f : ImageFile) (u : String)
    (lm : LandmarkInfo) (h : String) (srcs : List GroundingSource) (a : String)
    (calls : List CapCall) :
    (retryFinish st f u lm h srcs a calls).state.tourHistory = st.tourHistory
    ∨ ∃ stop, (retryFinish st f u lm h srcs a calls).state.tourHistory
          = st.tourHistory ++ [stop]
        ∧ ∀ item ∈ st.tourHistory, item.landmarkInfo.name ≠ stop.landmarkInfo.name := by
  unfold retryFinish
  split
  next => left; rfl
  next hfind =>
    right
    refine ⟨_, rfl, ?_⟩
    intro item hmem heq
    apply hfind
    rw [Option.isSome_iff_exists]
    have : st.tourHistory.find? (fun item => item.landmarkInfo.name == lm.name) ≠ none := by
      rw [ne_eq, List.find?_eq_none]
      intro hall
      exact absurd (by simp [heq]) (hall item hmem)
    exact Option.ne_none_iff_exists'.mp this

theorem retryStage3_ledger (st : AppState) (stepToRetry : LoadingStep)
    (f : ImageFile) (u : String) (lm : LandmarkInfo) (h : String)
    (srcs : List GroundingSource) (sr : Except String String)
    (calls : List CapCall) :
    (retryStage3 st stepToRetry f u lm h srcs sr calls).state.tourHistory = st.tourHistory
    ∨ ∃ stop, (retryStage3 st stepToRetry f u lm h srcs sr calls).state.tourHistory
          = st.tourHistory ++ [stop]
        ∧ ∀ item ∈ st.tourHistory, item.landmarkInfo.name ≠ stop.landmarkInfo.name := by
  unfold retryStage3
  split
  · cases sr with
    | error m => left; exact applyFailure_tourHistory _ _ _
    | ok audio => exact retryFinish_ledger _ _ _ _ _ _ _ _
  · exact retryFinish_ledger _ _ _ _ _ _ _ _

theorem retryStage2_ledger (st : AppState) (stepToRetry : LoadingStep)
    (f : ImageFile) (u : String) (lm : LandmarkInfo)
    (hr : Except String (String × List GroundingSource))
    (sr : Except String String) (calls : List CapCall) :
    (retryStage2 st stepToRetry f u lm hr sr calls).state.tourHistory = st.tourHistory
    ∨ ∃ stop, (retryStage2 st stepToRetry f u lm hr sr calls).state.tourHistory
          = st.tourHistory ++ [stop]
        ∧ ∀ item ∈ st.tourHistory, item.landmarkInfo.name ≠ stop.landmarkInfo.name := by
  unfold retryStage2
  split
  · cases hr with
    | error m => left; exact applyFailure_tourHistory _ _ _
    | ok hs => exact retryStage3_ledger _ _ _ _ _ _ _ _ _
  · exact retryStage3_ledger _ _ _ _ _ _ _ _ _

/-- Claim C2 (amended): the Ledger CAN contain two entries with the same
landmark name — the direct success path of handleImageSelect appends without
a duplicate check (see the counterexample) — but the retry path deduplicates
by landmark name: handleRetry either leaves the tour history unchanged or
appends exactly one stop whose landmark name differs from every entry already
recorded. -/
theorem c2_amended_retry_never_appends_duplicate_name (st : AppState)
    (i : Except String LandmarkInfo)
    (hr : Except String (String × List GroundingSource))
    (sr : Except String String) :
    (handleRetry st i hr sr).state.tourHistory = st.tourHistory
    ∨ ∃ stop, (handleRetry st i hr sr).state.tourHistory = st.tourHistory ++ [stop]
        ∧ ∀ item ∈ st.tourHistory, item.landmarkInfo.name ≠ stop.landmarkInfo.name := by
  unfold handleRetry
  split
  next stepToRetry f u k =>
    split
    next => left; rfl
    next =>
      split
      · cases i with
        | error m => left; exact applyFailure_tourHistory _ _ _
        | ok lm => exact retryStage2_ledger _ _ _ _ _ _ _ _
      · cases st.landmarkInfo with
        | some lm => exact retryStage2_ledger _ _ _ _ _ _ _ _
        | none => left; exact applyFailure_tourHistory _ _ _
  next => left; rfl

/-- Claim C2 amended witness: the dedup disjunction at a concrete retry run. -/
theorem c2_amended_witness :
    (handleRetry (failedState LoadingStep.GENERATING_SPEECH) (Except.ok lmEiffel)
        (Except.ok ("h", [])) (Except.ok "a")).state.tourHistory
      = (failedState LoadingStep.GENERATING_SPEECH).tourHistory
    ∨ ∃ stop, (handleRetry (failedState LoadingStep.GENERATING_SPEECH) (Except.ok lmEiffel)
          (Except.ok ("h", [])) (Except.ok "a")).state.tourHistory
        = (failedState LoadingStep.GENERATING_SPEECH).tourHistory ++ [stop]
        ∧ ∀ item ∈ (failedState LoadingStep.GENERATING_SPEECH).tourHistory,
            item.landmarkInfo.name ≠ stop.landmarkInfo.name :=
  c2_amended_retry_never_appends_duplicate_name (failedState LoadingStep.GENERATING_SPEECH)
    (Except.ok lmEiffel) (Except.ok ("h", [])) (Except.ok "a")

theorem resetState_false_tourHistory (st : AppState) :
    (resetState st false).state.tourHistory = st.tourHistory := rfl

theorem resetState_false_isTourEnded (st : AppState) :
    (resetState st false).state.isTourEnded = st.isTourEnded := rfl

/-- Claim C3: for every attempt (one run of handleImageSelect with the
prerequisites present), a TourStop is appended to the Ledger if and only if
all three pipeline stages succeeded in order: when they all succeed the new
fully-built stop is appended, and when any stage throws the tour history is
left exactly as it was. -/
theorem c3_ledger_append_iff_all_stages_succeed (st : AppState) (f : ImageFile)
    (u k : String) (i : Except String LandmarkInfo)
    (hr : Except String (String × List GroundingSource))
    (sr : Except String String)
    (hLvl : st.userLevel ≠ "") (hKey : st.apiKey = some k) :
    (∀ lm hs a, i = Except.ok lm → hr = Except.ok hs → sr = Except.ok a →
      (handleImageSelect st f u i hr sr).state.tourHistory
        = st.tourHistory ++ [{ landmarkInfo := lm, imageUrl := u, imageFile := f,
                               history := hs.1, sources := hs.2, base64Audio := a }])
    ∧ (∀ m, i = Except.error m →
        (handleImageSelect st f u i hr sr).state.tourHistory = st.tourHistory)
    ∧ (∀ lm m, i = Except.ok lm → hr = Except.error m →
        (handleImageSelect st f u i hr sr).state.tourHistory = st.tourHistory)
    ∧ (∀ lm hs m, i = Except.ok lm → hr = Except.ok hs → sr = Except.error m →
        (handleImageSelect st f u i hr sr).state.tourHistory = st.tourHistory) := by
  have hb : (st.userLevel == "") = false := beq_eq_false_iff_ne.mpr hLvl
  refine ⟨?_, ?_, ?_, ?_⟩
  · intro lm hs a hi hh hs'
    subst hi; subst hh; subst hs'
    simp [handleImageSelect, hb, hKey, resetState_false_tourHistory]
  · intro m hi
    subst hi
    simp [handleImageSelect, hb, hKey, applyFailure_tourHistory,
      resetState_false_tourHistory]
  · intro lm m hi hh
    subst hi; subst hh
    simp [handleImageSelect, hb, hKey, applyFailure_tourHistory,
      resetState_false_tourHistory]
  · intro lm hs m hi hh hs'
    subst hi; subst hh; subst hs'
    simp [handleImageSelect, hb, hKey, applyFailure_tourHistory,
      resetState_false_tourHistory]

/-- Claim C3 witness: a concrete all-successful attempt appends the built
stop. -/
theorem c3_witness :
    (handleImageSelect idleState { id := 1 } "blob:photo-1"
        (Except.ok lmEiffel) (Except.ok ("h", [])) (Except.ok "a")).state.tourHistory
      = idleState.tourHistory ++ [{ landmarkInfo := lmEiffel, imageUrl := "blob:photo-1",
                                    imageFile := { id := 1 }, history := "h",
                                    sources := [], base64Audio := "a" }] :=
  (c3_ledger_append_iff_all_stages_succeed idleState { id := 1 } "blob:photo-1" "k"
      (Except.ok lmEiffel) (Except.ok ("h", [])) (Except.ok "a")
      (by decide) rfl).1 lmEiffel ("h", []) "a" rfl rfl rfl

theorem classifyError_key (m : String)
    (hm : jsIncludes m "API key not valid" = true) :
    classifyError m = (ErrorType.key, false) := by
  unfold classifyError
  simp [hm]

/-- Claim C5: whichever pipeline stage fails with an invalid-credential error
(message containing the API-key-not-valid marker), the stored credential is
removed from local storage, the in-memory key is cleared, the state enters
ERROR with failedStep equal to the stage that was executing, and the failure
is classified non-retryable (so the UI offers only reset, not retry). -/
theorem c5_invalid_key_clears_credential (st : AppState) (f : ImageFile)
    (u k m : String)
    (hLvl : st.userLevel ≠ "") (hKey : st.apiKey = some k)
    (hm : jsIncludes m "API key not valid" = true) :
    (∀ hr sr,
      (handleImageSelect st f u (Except.error m) hr sr).state.storedKey = none
      ∧ (handleImageSelect st f u (Except.error m) hr sr).state.apiKey = none
      ∧ (handleImageSelect st f u (Except.error m) hr sr).state.loadingStep
          = LoadingStep.ERROR
      ∧ (handleImageSelect st f u (Except.error m) hr sr).state.failedStep
          = some LoadingStep.IDENTIFYING
      ∧ (handleImageSelect st f u (Except.error m) hr sr).state.isRetryableError
          = false)
    ∧ (∀ lm sr,
      (handleImageSelect st f u (Except.ok lm) (Except.error m) sr).state.storedKey = none
      ∧ (handleImageSelect st f u (Except.ok lm) (Except.error m) sr).state.apiKey = none
      ∧ (handleImageSelect st f u (Except.ok lm) (Except.error m) sr).state.loadingStep
          = LoadingStep.ERROR
      ∧ (handleImageSelect st f u (Except.ok lm) (Except.error m) sr).state.failedStep
          = some LoadingStep.FETCHING_HISTORY
      ∧ (handleImageSelect st f u (Except.ok lm) (Except.error m) sr).state.isRetryableError
          = false)
    ∧ (∀ lm hs,
      (handleImageSelect st f u (Except.ok lm) (Except.ok hs)
          (Except.error m)).state.storedKey = none
      ∧ (handleImageSelect st f u (Except.ok lm) (Except.ok hs)
          (Except.error m)).state.apiKey = none
      ∧ (handleImageSelect st f u (Except.ok lm) (Except.ok hs)
          (Except.error m)).state.loadingStep = LoadingStep.ERROR
      ∧ (handleImageSelect st f u (Except.ok lm) (Except.ok hs)
          (Except.error m)).state.failedStep = some LoadingStep.GENERATING_SPEECH
      ∧ (handleImageSelect st f u (Except.ok lm) (Except.ok hs)
          (Except.error m)).state.isRetryableError = false) := by
  have hb : (st.userLevel == "") = false := beq_eq_false_iff_ne.mpr hLvl
  refine ⟨fun hr sr => ?_, fun lm sr => ?_, fun lm hs => ?_⟩ <;>
    simp [handleImageSelect, hb, hKey, applyFailure, classifyError_key m hm,
      handleInvalidApiKey]

/-- Claim C5 witness: a concrete invalid-credential failure during the speech
stage clears the credential, blames GENERATING_SPEECH and disables retry. -/
theorem c5_witness :
    ((handleImageSelect idleState { id := 1 } "blob:photo-1"
        (Except.ok lmEiffel) (Except.ok ("h", []))
        (Except.error "API key not valid.")).state.storedKey = none)
    ∧ ((handleImageSelect idleState { id := 1 } "blob:photo-1"
        (Except.ok lmEiffel) (Except.ok ("h", []))
        (Except.error "API key not valid.")).state.apiKey = none)
    ∧ ((handleImageSelect idleState { id := 1 } "blob:photo-1"
        (Except.ok lmEiffel) (Except.ok ("h", []))
        (Except.error "API key not valid.")).state.loadingStep = LoadingStep.ERROR)
    ∧ ((handleImageSelect idleState { id := 1 } "blob:photo-1"
        (Except.ok lmEiffel) (Except.ok ("h", []))
        (Except.error "API key not valid.")).state.failedStep
          = some LoadingStep.GENERATING_SPEECH)
    ∧ ((handleImageSelect idleState { id := 1 } "blob:photo-1"
        (Except.ok lmEiffel) (Except.ok ("h", []))
        (Except.error "API key not valid.")).state.isRetryableError = false) :=
  (c5_invalid_key_clears_credential idleState { id := 1 } "blob:photo-1" "k"
      "API key not valid." (by decide) rfl (by decide)).2.2 lmEiffel ("h", [])

/-- Claim C8: selecting a ledger entry at a valid index restores the Done
view with exactly that entry's landmark info, history, sources, audio, image
file and image URL, performing no capability call; an out-of-range index
leaves the state (and traces) completely unchanged. -/
theorem c8_select_landmark_restores_entry (st : AppState) (index : Nat) :
    (∀ h : index < st.tourHistory.length,
      (handleSelectLandmark st index).state =
        { st with
          loadingStep := LoadingStep.DONE
          error := none
          failedStep := none
          landmarkInfo := some (st.tourHistory.get ⟨index, h⟩).landmarkInfo
          history := (st.tourHistory.get ⟨index, h⟩).history
          sources := (st.tourHistory.get ⟨index, h⟩).sources
          base64Audio := (st.tourHistory.get ⟨index, h⟩).base64Audio
          imageFile := some (st.tourHistory.get ⟨index, h⟩).imageFile
          imageUrl := some (st.tourHistory.get ⟨index, h⟩).imageUrl
          isTourEnded := false }
      ∧ (handleSelectLandmark st index).calls = [])
    ∧ (st.tourHistory.length ≤ index →
        handleSelectLandmark st index = { state := st, calls := [], revoked := [] }) := by
  constructor
  · intro h
    have hget : st.tourHistory[index]? = some (st.tourHistory.get ⟨index, h⟩) := by
      rw [List.getElem?_eq_getElem h]
      rfl
    unfold handleSelectLandmark
    rw [hget]
    exact ⟨rfl, rfl⟩
  · intro h
    have hnone : st.tourHistory[index]? = none := by
      rw [List.getElem?_eq_none_iff]
      exact h
    unfold handleSelectLandmark
    rw [hnone]

/-- Claim C8 witness: selecting index 0 of a one-entry ledger performs no
capability call, and selecting index 5 leaves everything unchanged. -/
theorem c8_witness :
    ((handleSelectLandmark { idleState with tourHistory := [doneStop] } 0).calls = [])
    ∧ (handleSelectLandmark { idleState with tourHistory := [doneStop] } 5
        = { state := { idleState with tourHistory := [doneStop] },
            calls := [], revoked := [] }) :=
  ⟨((c8_select_landmark_restores_entry { idleState with tourHistory := [doneStop] } 0).1
      (by decide)).2,
   (c8_select_landmark_restores_entry { idleState with tourHistory := [doneStop] } 5).2
      (by decide)⟩

/-- Claim C9 counterexample: the answer-failure branch of submitMessage does
not merely append — it removes the just-appended user message: after the
failure update, the previous message list is no longer a prefix of the new
one. -/
theorem c9_failure_branch_removes_message_cx :
    dropLastOnFailure (appendUserMessage [] "hi") = []
    ∧ ¬ (appendUserMessage [] "hi" <+: dropLastOnFailure (appendUserMessage [] "hi")) := by
  refine ⟨rfl, ?_⟩
  simp [appendUserMessage, dropLastOnFailure]

/-- Claim C9 (amended): submitting a question and receiving an answer append
one message each (a successful submission appends exactly the user message
followed by the model answer); handling an answer failure removes exactly the
user message that the same submission just appended, so a failed submission
leaves the pre-submission sequence unchanged — messages recorded before the
operation began are never modified or removed. -/
theorem c9_amended_submit_message (prev : List ChatMessage) (message r e : String)
    (hm : jsTrim message ≠ "") :
    (submitMessage prev message false (Except.ok r)
      = prev ++ [{ role := Role.user, content := message },
                 { role := Role.model, content := r }])
    ∧ (submitMessage prev message false (Except.error e) = prev) := by
  have hb : (jsTrim message == "") = false := beq_eq_false_iff_ne.mpr hm
  constructor
  · simp [submitMessage, hb, appendUserMessage, appendModelMessage]
  · simp [submitMessage, hb, appendUserMessage, dropLastOnFailure]

/-- Claim C9 amended witness: concrete success and failure submissions. -/
theorem c9_amended_witness :
    (submitMessage [] "hi" false (Except.ok "ans")
      = [{ role := Role.user, content := "hi" }, { role := Role.model, content := "ans" }])
    ∧ (submitMessage [] "hi" false (Except.error "err") = []) := by
  have h := c9_amended_submit_message [] "hi" "ans" "err" (by decide)
  simpa using h

/-- Claim C10: a per-attempt reset (resetState with isNewTour false) leaves
the tour history and the tour-ended flag unchanged and never revokes an
object URL referenced by a ledger entry (the current image URL is revoked
only when no entry references it); a full restart (isNewTour true) clears the
ledger and revokes every ledger entry URL. -/
theorem c10_reset_frame_conditions (st : AppState) :
    ((resetState st false).state.tourHistory = st.tourHistory
      ∧ (resetState st false).state.isTourEnded = st.isTourEnded
      ∧ ∀ u ∈ (resetState st false).revoked, ∀ stop ∈ st.tourHistory,
          stop.imageUrl ≠ u)
    ∧ ((resetState st true).state.tourHistory = []
      ∧ ∀ stop ∈ st.tourHistory, stop.imageUrl ∈ (resetState st true).revoked) := by
  have hrev : (resetState st false).revoked =
      match st.imageUrl with
      | some u0 =>
        if st.tourHistory.any (fun stop => stop.imageUrl == u0) then [] else [u0]
      | none => [] := rfl
  refine ⟨⟨rfl, rfl, ?_⟩, rfl, ?_⟩
  · intro u hu stop hs heq
    rw [hrev] at hu
    cases himg : st.imageUrl with
    | none => rw [himg] at hu; simp at hu
    | some u0 =>
      rw [himg] at hu
      dsimp only at hu
      by_cases hany : st.tourHistory.any (fun stop => stop.imageUrl == u0) = true
      · simp [hany] at hu
      · rw [if_neg hany] at hu
        have hu0 : u = u0 := by simpa using hu
        apply hany
        rw [List.any_eq_true]
        refine ⟨stop, hs, ?_⟩
        simp [heq, hu0]
  · intro stop hs
    unfold resetState
    dsimp only
    exact List.mem_append_right _ (List.mem_map_of_mem _ hs)

/-- Claim C10 witness: after a full restart the recorded entry URL is among
the revoked URLs, and after a per-attempt reset the ledger of a one-entry
session is untouched. -/
theorem c10_witness :
    ((resetState { idleState with tourHistory := [doneStop] } false).state.tourHistory
      = ({ idleState with tourHistory := [doneStop] } : AppState).tourHistory)
    ∧ doneStop.imageUrl
        ∈ (resetState { idleState with tourHistory := [doneStop] } true).revoked :=
  ⟨(c10_reset_frame_conditions { idleState with tourHistory := [doneStop] }).1.1,
   (c10_reset_frame_conditions { idleState with tourHistory := [doneStop] }).2.2 doneStop
      (List.mem_singleton_self _)⟩

end PLE
